import Mathlib

/-!
Shallow embedding of `pallet-subnet` (src/pallets/pallet-subnet/src/lib.rs),
a minimal on-chain registry pallet with two storage maps (`Subnets`,
`Providers`), two extrinsics (`create_subnet`, `register_provider`), two
events and three declared errors.

`T::AccountId` is an opaque, equality-comparable key; we model it as an
arbitrary type `A` with decidable equality.  `Vec<u8>` becomes `List Nat`
(bytes are opaque payload here), `u32` becomes `Nat` (no arithmetic is
performed on these fields, so overflow never matters).
`StorageMap<_, _, T::AccountId, SubnetMetadata, OptionQuery>` becomes
`A → Option SubnetMetadata`; the `Providers` map uses `ValueQuery` with
`Vec`'s `Default` (empty), so it becomes a total map `A → List
ProviderMetadata` where the absent key reads as `[]`.
-/

namespace PalletSubnet

/-- `SubnetMetadata` struct from the pallet (all fields caller-supplied). -/
structure SubnetMetadata where
  title : List Nat
  intro : List Nat
  rewards_allocation : Nat
  core_performance : Nat
  gpunet_performance : Nat
  metadata : List Nat
deriving DecidableEq

/-- `ProviderMetadata` struct from the pallet. -/
structure ProviderMetadata where
  name : List Nat
  resource_details : List Nat
deriving DecidableEq

/-- The pallet's `Event<T>` enum: `SubnetCreated(T::AccountId, SubnetMetadata)`
and `ProviderRegistered(T::AccountId, ProviderMetadata)`. -/
inductive Event (A : Type) where
  | SubnetCreated : A → SubnetMetadata → Event A
  | ProviderRegistered : A → ProviderMetadata → Event A
deriving DecidableEq

/-- The pallet's `Error<T>` enum, all three declared variants. -/
inductive Error where
  | SubnetAlreadyExists
  | ProviderAlreadyRegistered
  | SubnetNotFound
deriving DecidableEq

/-- Pallet storage: the `Subnets` map (`OptionQuery`: absence is `none`) and
the `Providers` map (`ValueQuery`: absence reads as the empty list). -/
structure State (A : Type) where
  subnets : A → Option SubnetMetadata
  providers : A → List ProviderMetadata

/-- The empty storage state: no subnet records, every provider list empty. -/
def State.empty (A : Type) : State A :=
  { subnets := fun _ => none, providers := fun _ => [] }

/-- Outcome of one dispatch: the post-call storage, the events deposited by
the call, and `none` for `Ok(())` or `some e` for `Err(e)`.  FRAME applies
each extrinsic transactionally; both extrinsics here check before writing,
so the error paths return the unchanged storage with no events. -/
structure CallResult (A : Type) where
  state : State A
  events : List (Event A)
  result : Option Error

/-- `StorageMap::contains_key` on the `Subnets` map. -/
def contains_key {A : Type} (s : State A) (k : A) : Bool :=
  (s.subnets k).isSome

/-- `create_subnet(origin, metadata)`: `who = ensure_signed(origin)` (the
already-authenticated caller is the parameter here); fail with
`SubnetAlreadyExists` if `Subnets` contains `who`; otherwise insert
`who ↦ metadata` into `Subnets` and deposit `SubnetCreated(who, metadata)`. -/
def create_subnet {A : Type} [DecidableEq A] (s : State A) (who : A)
    (metadata : SubnetMetadata) : CallResult A :=
  if contains_key s who then
    { state := s, events := [], result := some Error.SubnetAlreadyExists }
  else
    { state := { s with subnets := fun a => if a = who then some metadata else s.subnets a },
      events := [Event.SubnetCreated who metadata],
      result := none }

/-- `register_provider(origin, subnet_owner, provider_metadata)`: fail with
`SubnetNotFound` if `Subnets` does not contain `subnet_owner`; otherwise
`Providers::mutate(subnet_owner, |ps| ps.push(provider_metadata))` and
deposit `ProviderRegistered(who, provider_metadata)` — the event carries the
caller `who`, not `subnet_owner`. -/
def register_provider {A : Type} [DecidableEq A] (s : State A) (who : A)
    (subnet_owner : A) (provider_metadata : ProviderMetadata) : CallResult A :=
  if contains_key s subnet_owner then
    { state := { s with providers := fun a =>
        if a = subnet_owner then s.providers a ++ [provider_metadata] else s.providers a },
      events := [Event.ProviderRegistered who provider_metadata],
      result := none }
  else
    { state := s, events := [], result := some Error.SubnetNotFound }

/-- A dispatchable call of this pallet, with the authenticated caller as the
first component (the dispatcher resolves `origin` before the pallet runs). -/
inductive Call (A : Type) where
  | createSubnet : A → SubnetMetadata → Call A
  | registerProvider : A → A → ProviderMetadata → Call A

/-- Dispatch one call against the current storage. -/
def applyCall {A : Type} [DecidableEq A] (s : State A) : Call A → CallResult A
  | Call.createSubnet who m => create_subnet s who m
  | Call.registerProvider who owner pm => register_provider s who owner pm

/-- Storage after a sequence of calls (each call's post-state feeds the next;
failed calls leave storage unchanged). -/
def runCalls {A : Type} [DecidableEq A] (s : State A) (cs : List (Call A)) : State A :=
  cs.foldl (fun st c => (applyCall st c).state) s

/-- States reachable from empty storage through the two public extrinsics. -/
inductive Reachable {A : Type} [DecidableEq A] : State A → Prop where
  | empty : Reachable (State.empty A)
  | step : ∀ {s : State A} (c : Call A), Reachable s → Reachable (applyCall s c).state

/-- A sequence of `register_provider` calls against a fixed `owner`, by
callers `cs.map Prod.fst` with payloads `cs.map Prod.snd`, in order. -/
def registerSeq {A : Type} (owner : A) (cs : List (A × ProviderMetadata)) : List (Call A) :=
  cs.map (fun c => Call.registerProvider c.1 owner c.2)

/-! ### Sample concrete values used by witnesses -/

/-- Concrete subnet metadata used as a witness input. -/
def sampleM1 : SubnetMetadata := ⟨[1], [2], 3, 4, 5, [6]⟩

/-- A second, distinct concrete subnet metadata. -/
def sampleM2 : SubnetMetadata := ⟨[7], [8], 9, 10, 11, [12]⟩

/-- Concrete provider metadata used as a witness input. -/
def sampleP1 : ProviderMetadata := ⟨[13], [14]⟩

/-- A second, distinct concrete provider metadata. -/
def sampleP2 : ProviderMetadata := ⟨[15], [16]⟩

/-- A state where account `0` owns a subnet with metadata `sampleM1`. -/
def sAlice : State Nat := (create_subnet (State.empty Nat) 0 sampleM1).state

/-! ### Helper lemmas (shared) -/

/-- `register_provider` never writes to the `Subnets` map, on success or
failure. -/
theorem register_provider_preserves_subnets {A : Type} [DecidableEq A]
    (s : State A) (who owner : A) (pm : ProviderMetadata) :
    (register_provider s who owner pm).state.subnets = s.subnets := by
  unfold register_provider
  split <;> rfl

/-- Neither extrinsic ever removes or overwrites an existing `Subnets`
entry: a single dispatched call preserves `subnets[a] = some m`. -/
theorem applyCall_preserves_subnet_entry {A : Type} [DecidableEq A]
    (s : State A) (c : Call A) (a : A) (m : SubnetMetadata)
    (h : s.subnets a = some m) :
    (applyCall s c).state.subnets a = some m := by
  cases c with
  | createSubnet who m2 =>
    by_cases hck : contains_key s who
    · simp [applyCall, create_subnet, hck, h]
    · by_cases haw : a = who
      · exact absurd (by simp [contains_key, haw ▸ h]) hck
      · simp [applyCall, create_subnet, hck, haw, h]
  | registerProvider who owner pm =>
    simp [applyCall, register_provider_preserves_subnets, h]

/-- Running any sequence of `register_provider` calls leaves the whole
`Subnets` map unchanged. -/
theorem runCalls_registerSeq_subnets {A : Type} [DecidableEq A]
    (s : State A) (owner : A) (cs : List (A × ProviderMetadata)) :
    (runCalls s (registerSeq owner cs)).subnets = s.subnets := by
  induction cs generalizing s with
  | nil => rfl
  | cons hd tl ih =>
    simp only [registerSeq, List.map_cons, runCalls, List.foldl_cons]
    have := ih (applyCall s (Call.registerProvider hd.1 owner hd.2)).state
    simp only [runCalls, registerSeq] at this
    rw [this]
    exact register_provider_preserves_subnets s hd.1 owner hd.2

/-- If `owner` has a subnet, a sequence of `register_provider` calls against
`owner` appends the payloads, in call order, to `providers[owner]`. -/
theorem runCalls_registerSeq_providers {A : Type} [DecidableEq A]
    (s : State A) (owner : A) (cs : List (A × ProviderMetadata))
    (h : contains_key s owner = true) :
    (runCalls s (registerSeq owner cs)).providers owner
      = s.providers owner ++ cs.map Prod.snd := by
  induction cs generalizing s with
  | nil => simp [runCalls, registerSeq]
  | cons hd tl ih =>
    simp only [registerSeq, List.map_cons, runCalls, List.foldl_cons]
    have hstep : (applyCall s (Call.registerProvider hd.1 owner hd.2)).state
        = { s with providers := fun a =>
            if a = owner then s.providers a ++ [hd.2] else s.providers a } := by
      simp [applyCall, register_provider, h]
    have hck : contains_key (applyCall s (Call.registerProvider hd.1 owner hd.2)).state owner
        = true := by
      rw [hstep]
      exact h
    have := ih (applyCall s (Call.registerProvider hd.1 owner hd.2)).state hck
    simp only [runCalls, registerSeq] at this
    rw [this, hstep]
    simp

/-! ### Claim theorems -/

/-- Claim C1: starting from a state in which account `a` has no subnet
record, `create_subnet(a, m1)` succeeds, a second `create_subnet(a, m2)`
fails with `SubnetAlreadyExists`, and after both calls `subnets[a]` equals
`m1`, the metadata from the first call only. -/
theorem create_subnet_uniqueness {A : Type} [DecidableEq A] (s : State A)
    (a : A) (m1 m2 : SubnetMetadata) (h : s.subnets a = none) :
    (create_subnet s a m1).result = none ∧
    (create_subnet (create_subnet s a m1).state a m2).result
      = some Error.SubnetAlreadyExists ∧
    (create_subnet (create_subnet s a m1).state a m2).state.subnets a
      = some m1 := by
  refine ⟨by simp [create_subnet, contains_key, h], ?_, ?_⟩ <;>
    simp [create_subnet, contains_key, h]

/-- Witness for C1 at account `0` in the empty state. -/
theorem create_subnet_uniqueness_witness :
    (create_subnet (State.empty Nat) 0 sampleM1).result = none ∧
    (create_subnet (create_subnet (State.empty Nat) 0 sampleM1).state 0 sampleM2).result
      = some Error.SubnetAlreadyExists ∧
    (create_subnet (create_subnet (State.empty Nat) 0 sampleM1).state 0 sampleM2).state.subnets 0
      = some sampleM1 :=
  create_subnet_uniqueness (State.empty Nat) 0 sampleM1 sampleM2 rfl

/-- Claim C2: if the `Subnets` map contains no key `a`, then
`register_provider(caller, a, p)` fails with `SubnetNotFound` and the whole
storage (in particular `providers[a]`) is unchanged. -/
theorem register_provider_existence_gating {A : Type} [DecidableEq A]
    (s : State A) (c a : A) (p : ProviderMetadata) (h : s.subnets a = none) :
    (register_provider s c a p).result = some Error.SubnetNotFound ∧
    (register_provider s c a p).state = s := by
  have hck : contains_key s a = false := by simp [contains_key, h]
  exact ⟨by simp [register_provider, hck], by simp [register_provider, hck]⟩

/-- Witness for C2: registering against subnet-less account `2` fails. -/
theorem register_provider_existence_gating_witness :
    (register_provider (State.empty Nat) 1 2 sampleP1).result
      = some Error.SubnetNotFound ∧
    (register_provider (State.empty Nat) 1 2 sampleP1).state = State.empty Nat :=
  register_provider_existence_gating (State.empty Nat) 1 2 sampleP1 rfl

/-- Claim C3: against an existing subnet owner whose provider list starts
empty, a sequence of `register_provider` calls (duplicates allowed) all
succeed (the `i`-th call, dispatched in the state reached by the first `i`,
returns `Ok`), and afterwards `providers[owner]` is exactly the list of
payloads in call order, with length exactly `N`. -/
theorem register_provider_append_ordering {A : Type} [DecidableEq A]
    (s : State A) (owner : A) (cs : List (A × ProviderMetadata))
    (i : Nat) (hi : i < cs.length)
    (hex : (s.subnets owner).isSome = true) (h0 : s.providers owner = []) :
    (applyCall (runCalls s (registerSeq owner (cs.take i)))
        (Call.registerProvider (cs.get ⟨i, hi⟩).1 owner (cs.get ⟨i, hi⟩).2)).result
      = none ∧
    (runCalls s (registerSeq owner cs)).providers owner = cs.map Prod.snd ∧
    ((runCalls s (registerSeq owner cs)).providers owner).length = cs.length := by
  have happ := runCalls_registerSeq_providers s owner cs hex
  refine ⟨?_, ?_, ?_⟩
  · have hsub := runCalls_registerSeq_subnets s owner (cs.take i)
    have hck : contains_key (runCalls s (registerSeq owner (cs.take i))) owner = true := by
      unfold contains_key
      rw [hsub]
      exact hex
    simp [applyCall, register_provider, hck]
  · rw [happ, h0]
    simp
  · rw [happ, h0]
    simp

/-- Witness for C3: two registrations (by different callers, the second a
byte-identical duplicate payload) against owner `0`. -/
theorem register_provider_append_ordering_witness :
    (applyCall (runCalls sAlice (registerSeq 0 ([(1, sampleP1), (2, sampleP1)].take 1)))
        (Call.registerProvider
          (([(1, sampleP1), (2, sampleP1)] : List (Nat × ProviderMetadata)).get
            ⟨1, by decide⟩).1 0
          (([(1, sampleP1), (2, sampleP1)] : List (Nat × ProviderMetadata)).get
            ⟨1, by decide⟩).2)).result = none ∧
    (runCalls sAlice (registerSeq 0 [(1, sampleP1), (2, sampleP1)])).providers 0
      = [sampleP1, sampleP1] ∧
    ((runCalls sAlice (registerSeq 0 [(1, sampleP1), (2, sampleP1)])).providers 0).length
      = 2 :=
  register_provider_append_ordering sAlice 0 [(1, sampleP1), (2, sampleP1)]
    1 (by decide) (by decide) (by decide)

/-- Claim C4: whenever a dispatched call returns an error, the storage
(both maps) is identical to the pre-call state and zero events are
emitted. -/
theorem no_mutation_on_failure {A : Type} [DecidableEq A] (s : State A)
    (c : Call A) (e : Error) (h : (applyCall s c).result = some e) :
    (applyCall s c).state = s ∧ (applyCall s c).events = [] := by
  cases c with
  | createSubnet who m =>
    by_cases hck : contains_key s who
    · simp [applyCall, create_subnet, hck]
    · simp [applyCall, create_subnet, hck] at h
  | registerProvider who owner pm =>
    by_cases hck : contains_key s owner
    · simp [applyCall, register_provider, hck] at h
    · simp [applyCall, register_provider, hck]

/-- Witness for C4: the failing registration against account `2` leaves the
empty state intact and emits nothing. -/
theorem no_mutation_on_failure_witness :
    (applyCall (State.empty Nat) (Call.registerProvider 1 2 sampleP1)).state
      = State.empty Nat ∧
    (applyCall (State.empty Nat) (Call.registerProvider 1 2 sampleP1)).events = [] :=
  no_mutation_on_failure (State.empty Nat) (Call.registerProvider 1 2 sampleP1)
    Error.SubnetNotFound rfl

/-- Claim C5: a successful `create_subnet(a, m)` emits exactly the one
event `SubnetCreated(a, m)`; a successful `register_provider(c, o, p)`
emits exactly the one event `ProviderRegistered(c, p)` — the payload
carries the registering caller `c`, and the subnet owner `o` is not part of
the payload (the `Event` type has no constructor carrying two accounts). -/
theorem event_correctness {A : Type} [DecidableEq A] (s t : State A)
    (a c o : A) (m : SubnetMetadata) (p : ProviderMetadata)
    (h1 : (create_subnet s a m).result = none)
    (h2 : (register_provider t c o p).result = none) :
    (create_subnet s a m).events = [Event.SubnetCreated a m] ∧
    (register_provider t c o p).events = [Event.ProviderRegistered c p] := by
  constructor
  · by_cases hck : contains_key s a
    · simp [create_subnet, hck] at h1
    · simp [create_subnet, hck]
  · by_cases hck : contains_key t o
    · simp [register_provider, hck]
    · simp [register_provider, hck] at h2

/-- Witness for C5: concrete successful create (Alice = `0`) and register
(caller Bob = `1` against owner `0`). -/
theorem event_correctness_witness :
    (create_subnet (State.empty Nat) 0 sampleM1).events
      = [Event.SubnetCreated 0 sampleM1] ∧
    (register_provider sAlice 1 0 sampleP2).events
      = [Event.ProviderRegistered 1 sampleP2] :=
  event_correctness (State.empty Nat) sAlice 0 1 0 sampleM1 sampleP2 rfl
    (by decide)

/-- Claim C6: in every state and for every input, `create_subnet` either
succeeds or fails with `SubnetAlreadyExists`, and `register_provider`
either succeeds or fails with `SubnetNotFound`; in particular the declared
error `ProviderAlreadyRegistered` is never returned by either operation. -/
theorem error_taxonomy_reachability {A : Type} [DecidableEq A]
    (s t : State A) (a c o : A) (m : SubnetMetadata) (p : ProviderMetadata) :
    ((create_subnet s a m).result = none ∨
      (create_subnet s a m).result = some Error.SubnetAlreadyExists) ∧
    ((register_provider t c o p).result = none ∨
      (register_provider t c o p).result = some Error.SubnetNotFound) := by
  constructor
  · unfold create_subnet
    split <;> simp
  · unfold register_provider
    split <;> simp

/-- Claim C7: no-orphan invariant — in every state reachable from the
empty state through the two public extrinsics, any account with a
non-empty provider list has a subnet record. -/
theorem no_orphan_provider_lists {A : Type} [DecidableEq A] (s : State A)
    (hs : Reachable s) (a : A) (h : s.providers a ≠ []) :
    (s.subnets a).isSome = true := by
  revert h
  induction hs with
  | empty => intro h; exact absurd rfl h
  | @step s0 c hr ih =>
    intro h
    cases c with
    | createSubnet who m =>
      by_cases hck : contains_key s0 who
      · simp only [applyCall, create_subnet, hck, if_pos] at h ⊢
        exact ih h
      · simp only [applyCall, create_subnet, hck, if_neg, Bool.false_eq_true,
          not_false_eq_true] at h ⊢
        by_cases haw : a = who
        · simp [haw]
        · simp only [haw, if_neg, not_false_eq_true]
          exact ih h
    | registerProvider who owner pm =>
      by_cases hck : contains_key s0 owner
      · simp only [applyCall, register_provider, hck, if_pos] at h ⊢
        by_cases hao : a = owner
        · subst hao
          exact hck
        · simp only [hao, if_neg, not_false_eq_true] at h
          exact ih h
      · simp only [applyCall, register_provider, hck, Bool.false_eq_true,
          not_false_eq_true, if_neg] at h ⊢
        exact ih h

/-- Witness state for C7: create a subnet for `0`, then register a
provider against it. -/
def demoState : State Nat :=
  (applyCall (applyCall (State.empty Nat) (Call.createSubnet 0 sampleM1)).state
    (Call.registerProvider 1 0 sampleP1)).state

/-- Witness for C7: in the concrete reachable state `demoState`, account
`0` has a non-empty provider list and indeed has a subnet record. -/
theorem no_orphan_provider_lists_witness :
    demoState.providers 0 ≠ [] ∧ (demoState.subnets 0).isSome = true :=
  ⟨by decide,
    no_orphan_provider_lists demoState
      (Reachable.step (Call.registerProvider 1 0 sampleP1)
        (Reachable.step (Call.createSubnet 0 sampleM1) Reachable.empty))
      0 (by decide)⟩

/-- Claim C8: once `subnets[a] = some m`, any sequence of further calls —
by any callers, with any arguments, succeeding or failing — leaves
`subnets[a] = some m`: the subnet record is immutable and permanent. -/
theorem subnet_record_immutable {A : Type} [DecidableEq A] (s : State A)
    (a : A) (m : SubnetMetadata) (h : s.subnets a = some m)
    (cs : List (Call A)) :
    (runCalls s cs).subnets a = some m := by
  induction cs generalizing s with
  | nil => exact h
  | cons hd tl ih =>
    simp only [runCalls, List.foldl_cons]
    have := ih (applyCall s hd).state (applyCall_preserves_subnet_entry s hd a m h)
    simpa [runCalls] using this

/-- Witness for C8: after an attempted re-create and a provider
registration, account `0`'s subnet record still holds `sampleM1`. -/
theorem subnet_record_immutable_witness :
    (runCalls sAlice
        [Call.createSubnet 0 sampleM2, Call.registerProvider 1 0 sampleP1]).subnets 0
      = some sampleM1 :=
  subnet_record_immutable sAlice 0 sampleM1 (by decide)
    [Call.createSubnet 0 sampleM2, Call.registerProvider 1 0 sampleP1]

/-- Claim C9: frame conditions on success — a successful
`create_subnet(a, m)` sets `subnets[a] = m`, leaves every other subnets key
(e.g. `b ≠ a`) and the whole providers map unchanged; a successful
`register_provider(c, o, p)` appends `p` at the end of `providers[o]` with
all prior entries unchanged and in order, leaves every other providers key
(e.g. `b2 ≠ o`) and the whole subnets map unchanged. -/
theorem success_frame_conditions {A : Type} [DecidableEq A] (s t : State A)
    (a c o b b2 : A) (m : SubnetMetadata) (p : ProviderMetadata)
    (hb : b ≠ a) (hb2 : b2 ≠ o)
    (h1 : (create_subnet s a m).result = none)
    (h2 : (register_provider t c o p).result = none) :
    ((create_subnet s a m).state.subnets a = some m ∧
      (create_subnet s a m).state.subnets b = s.subnets b ∧
      (create_subnet s a m).state.providers = s.providers) ∧
    ((register_provider t c o p).state.providers o = t.providers o ++ [p] ∧
      (register_provider t c o p).state.providers b2 = t.providers b2 ∧
      (register_provider t c o p).state.subnets = t.subnets) := by
  constructor
  · by_cases hck : contains_key s a
    · simp [create_subnet, hck] at h1
    · simp [create_subnet, hck, hb]
  · by_cases hck : contains_key t o
    · simp [register_provider, hck, hb2]
    · simp [register_provider, hck] at h2

/-- Witness for C9: successful create by `0` on the empty state and
successful register by `1` against owner `0`, checking untouched keys `3`
and `4`. -/
theorem success_frame_conditions_witness :
    ((create_subnet (State.empty Nat) 0 sampleM1).state.subnets 0 = some sampleM1 ∧
      (create_subnet (State.empty Nat) 0 sampleM1).state.subnets 3
        = (State.empty Nat).subnets 3 ∧
      (create_subnet (State.empty Nat) 0 sampleM1).state.providers
        = (State.empty Nat).providers) ∧
    ((register_provider sAlice 1 0 sampleP2).state.providers 0
        = sAlice.providers 0 ++ [sampleP2] ∧
      (register_provider sAlice 1 0 sampleP2).state.providers 4
        = sAlice.providers 4 ∧
      (register_provider sAlice 1 0 sampleP2).state.subnets = sAlice.subnets) :=
  success_frame_conditions (State.empty Nat) sAlice 0 1 0 3 4 sampleM1 sampleP2
    (by decide) (by decide) rfl (by decide)

/-- Claim C10: `register_provider` is caller-independent in its storage
effect and result — two calls differing only in the signed caller produce
identical `subnets` and `providers` maps and the same result; the caller
identity shows up only as the first component of the emitted
`ProviderRegistered` event (and no event is emitted on failure). -/
theorem register_provider_caller_independence {A : Type} [DecidableEq A]
    (s : State A) (c1 c2 o : A) (p : ProviderMetadata) :
    (register_provider s c1 o p).state = (register_provider s c2 o p).state ∧
    (register_provider s c1 o p).result = (register_provider s c2 o p).result ∧
    (((register_provider s c1 o p).events = [Event.ProviderRegistered c1 p] ∧
        (register_provider s c2 o p).events = [Event.ProviderRegistered c2 p]) ∨
      ((register_provider s c1 o p).events = [] ∧
        (register_provider s c2 o p).events = [])) := by
  unfold register_provider
  split <;> simp

end PalletSubnet
